import Mathlib

/-!
# empowHER backend — shallow embedding and verification

A shallow embedding of the empowHER Node/Express backend (user accounts,
authentication, community membership and posts, job listings/applications)
together with proofs about its documented behaviour.

Conventions of the embedding:
* Mongo ObjectIds are modelled as natural numbers (`Id`); the string
  comparisons `a.toString() === b.toString()` in the source become `==` on
  `Id`.
* Mongoose documents become Lean structures; a `select: false` /
  `.select("-password")` projection becomes an `Option String` password
  field set to `none`.
* Database collections become lists of documents, looked up by id; writes
  become functional updates returned by the operation.  `$addToSet` and
  `$pull` become `addToSet` and `List.filter`.
* `jwt.verify` and `bcrypt.compare` are external libraries and enter as
  function parameters; request times enter as a `now : Nat` parameter.
* An Express handler becomes a function from its inputs to an outcome
  value; returning an error response before any write is modelled by
  returning the unchanged state alongside the error.
-/

namespace EmpowHER

/-- Mongo ObjectIds, modelled as natural numbers. -/
abbrev Id := Nat

/-- Application status enum of `Job.applicants[].status` and
`User.appliedJobs[].status` (src/models/User.js, src/server.js). -/
inductive AppStatus where
  | applied
  | reviewing
  | interview
  | rejected
  | accepted
deriving DecidableEq, Repr

/-- An entry of `User.appliedJobs` (src/models/User.js lines 90-106). -/
structure AppliedEntry where
  job : Id
  status : AppStatus
  appliedAt : Nat
deriving DecidableEq, Repr

/-- A user document (src/models/User.js).  `password` is `none` when the
field was not selected (the schema declares `select: false`). -/
structure User where
  id : Id
  name : String
  email : String
  password : Option String
  profileImage : String
  bio : String
  skills : List String
  location : String
  savedJobs : List Id
  appliedJobs : List AppliedEntry
  joinedCommunities : List Id
  notifiedCommunities : List Id
deriving DecidableEq, Repr

/-- A community document (src/models/Community.js). -/
structure Community where
  id : Id
  name : String
  description : String
  members : List Id
  moderators : List Id
  posts : List Id
deriving DecidableEq, Repr

/-- An entry of `Job.applicants` (src/server.js JobSchema). -/
structure Applicant where
  user : Id
  status : AppStatus
  appliedAt : Nat
  resume : Option String
  coverLetter : Option String
deriving DecidableEq, Repr

/-- A job document (src/server.js JobSchema); only the fields the verified
operations touch. -/
structure Job where
  id : Id
  postedBy : Id
  applicationDeadline : Option Nat
  applicants : List Applicant
deriving DecidableEq, Repr

/-- A post document (src/models/Post.js via communityController). -/
structure Post where
  id : Id
  community : Id
  author : Option Id
  authorName : String
  title : String
  content : String
  likes : List Id
deriving DecidableEq, Repr

/-- `User.findById`: look a user up by id in the collection. -/
def findUser (db : List User) (i : Id) : Option User :=
  db.find? (fun u => u.id == i)

/-- `User.findOne({email})`: look a user up by email. -/
def findUserByEmail (db : List User) (e : String) : Option User :=
  db.find? (fun u => u.email == e)

/-- `Job.findById`. -/
def findJob (db : List Job) (i : Id) : Option Job :=
  db.find? (fun j => j.id == i)

/-- Mongo `$addToSet` on an id array: append unless already present. -/
def addToSet (l : List Id) (x : Id) : List Id :=
  if l.contains x then l else l ++ [x]

/-- `.select("-password")` (and the schema default `select: false`):
the document with the password field excluded. -/
def stripPassword (u : User) : User :=
  { u with password := none }

/-! ## Auth middleware (src/unnamed/part_000)

`authMiddleware` and `optionalAuthMiddleware` extract a bearer token from
`req.cookies.token || req.cookies.auth_token || (authorization header)`,
verify it, and resolve the referenced user. -/

/-- The inbound request data the middleware reads: the two cookies and the
`Authorization` header, each absent (`none`) or a string (possibly empty,
which JavaScript treats as falsy). -/
structure Request where
  cookieToken : Option String
  cookieAuthToken : Option String
  authorizationHeader : Option String
deriving DecidableEq, Repr

/-- JavaScript truthiness of a string-or-undefined value: `undefined` and
`""` are falsy. -/
def jsStringTruthy : Option String → Option String
  | none => none
  | some s => if s == "" then none else some s

/-- JavaScript `a || b` on string-or-undefined values. -/
def jsOr (a b : Option String) : Option String :=
  match jsStringTruthy a with
  | some s => some s
  | none => b

/-- `req.headers.authorization && req.headers.authorization.startsWith("Bearer")
? req.headers.authorization.split(" ")[1] : null` (src/unnamed/part_000
lines 13-16). -/
def bearerFromHeader : Option String → Option String
  | none => none
  | some h =>
    if h != "" && h.startsWith "Bearer" then (h.splitOn " ").get? 1
    else none

/-- Token extraction shared by both middleware variants (src/unnamed/part_000
lines 10-16): first cookie `token`, then cookie `auth_token`, then the
`Authorization: Bearer` header; the final `if (!token)` check makes an empty
extracted string count as missing. -/
def extractToken (r : Request) : Option String :=
  jsStringTruthy (jsOr r.cookieToken (jsOr r.cookieAuthToken (bearerFromHeader r.authorizationHeader)))

/-- Result of `jwt.verify`: success carries the `id` claim; failure is
`TokenExpiredError`, `JsonWebTokenError` (with its message), or any other
error. -/
inductive VerifyResult where
  | ok (userId : Id)
  | expired
  | malformed (msg : String)
  | other
deriving DecidableEq, Repr

/-- An error response body `{message, error}`. -/
structure ErrorBody where
  message : String
  error : String
deriving DecidableEq, Repr

/-- Outcome of an auth middleware run: halt with an error response, or call
`next()` with `req.user` possibly attached. -/
inductive MwOutcome where
  | halt (status : Nat) (body : ErrorBody)
  | proceed (user : Option User)
deriving DecidableEq, Repr

/-- `authMiddleware` (src/unnamed/part_000 lines 7-104): mandatory
authentication.  `verify` stands for `jwt.verify` with the process secret;
`secretSet` is whether `process.env.JWT_SECRET` is nonempty. -/
def authMiddleware (verify : String → VerifyResult) (db : List User)
    (secretSet : Bool) (r : Request) : MwOutcome :=
  match extractToken r with
  | none =>
    .halt 401 ⟨"Authentication required", "No token provided"⟩
  | some token =>
    if !secretSet then
      .halt 500 ⟨"Server configuration error", "Auth system misconfigured"⟩
    else
      match verify token with
      | .ok uid =>
        match findUser db uid with
        | none => .halt 401 ⟨"User not found", "Account may have been deleted"⟩
        | some u => .proceed (some (stripPassword u))
      | .expired => .halt 401 ⟨"Authentication expired", "Token has expired"⟩
      | .malformed m => .halt 401 ⟨"Invalid authentication", m⟩
      | .other => .halt 401 ⟨"Authentication failed", "Token verification failed"⟩

/-- `optionalAuthMiddleware` (src/unnamed/part_000 lines 110-139): same
extraction, but every failure falls into `catch { next() }` and the request
continues without an identity. -/
def optionalAuthMiddleware (verify : String → VerifyResult) (db : List User)
    (r : Request) : MwOutcome :=
  match extractToken r with
  | none => .proceed none
  | some token =>
    match verify token with
    | .ok uid =>
      match findUser db uid with
      | none => .proceed none
      | some u => .proceed (some (stripPassword u))
    | .expired => .proceed none
    | .malformed _ => .proceed none
    | .other => .proceed none

/-! ## Community membership (src/controllers/communityController.js)

`joinCommunity` / `leaveCommunity` operate after an identity has been
resolved (token user, or a body `userId` re-validated against the store);
the embedding takes the resolved user directly. -/

/-- Outcome of `joinCommunity` for a resolved user (src/controllers/
communityController.js lines 236-268). -/
inductive JoinResult where
  | alreadyMember
  | joined
deriving DecidableEq, Repr

/-- `joinCommunity` core (src/controllers/communityController.js lines
236-268): no-op 200 when already a member; otherwise push the user onto
`community.members` and `$addToSet` the community into the user's
`joinedCommunities` and `notifiedCommunities`. -/
def joinCommunity (c : Community) (u : User) : JoinResult × Community × User :=
  if c.members.any (fun m => m == u.id) then
    (.alreadyMember, c, u)
  else
    (.joined,
     { c with members := c.members ++ [u.id] },
     { u with
        joinedCommunities := addToSet u.joinedCommunities c.id,
        notifiedCommunities := addToSet u.notifiedCommunities c.id })

/-- Outcome of `leaveCommunity` for a resolved user. -/
inductive LeaveResult where
  | notAMember
  | lastModerator
  | left
deriving DecidableEq, Repr

/-- `leaveCommunity` core (src/controllers/communityController.js lines
368-415): 400 `NotAMember` when the user is not in `members`; 400 when the
user is a moderator, the only moderator, and other members remain; otherwise
filter the user out of `members` and `moderators` and `$pull` the community
from the user's `joinedCommunities` and `notifiedCommunities`. -/
def leaveCommunity (c : Community) (u : User) : LeaveResult × Community × User :=
  if !(c.members.any (fun m => m == u.id)) then
    (.notAMember, c, u)
  else if c.moderators.any (fun m => m == u.id) &&
      c.moderators.length == 1 && c.members.length > 1 then
    (.lastModerator, c, u)
  else
    (.left,
     { c with
        members := c.members.filter (fun m => m != u.id),
        moderators := c.moderators.filter (fun m => m != u.id) },
     { u with
        joinedCommunities := u.joinedCommunities.filter (fun i => i != c.id),
        notifiedCommunities := u.notifiedCommunities.filter (fun i => i != c.id) })

/-- `join` then `leave` by the same user, threading the updated community
and user documents. -/
def joinThenLeave (c : Community) (u : User) : Community × User :=
  let j := joinCommunity c u
  let l := leaveCommunity j.2.1 j.2.2
  l.2

/-! ## Posts: create, like, unlike (src/controllers/communityController.js) -/

/-- Outcome of `likePost` for a resolved user. -/
inductive LikeResult where
  | alreadyLiked
  | liked (likeCount : Nat)
deriving DecidableEq, Repr

/-- `likePost` core (src/controllers/communityController.js lines 680-695):
400 `AlreadyLiked` when the user is in `post.likes`; otherwise push the user
and respond with `likeCount: post.likes.length` after the push. -/
def likePost (p : Post) (userId : Id) : LikeResult × Post :=
  if p.likes.contains userId then
    (.alreadyLiked, p)
  else
    (.liked (p.likes ++ [userId]).length, { p with likes := p.likes ++ [userId] })

/-- Outcome of `unlikePost` for a resolved user. -/
inductive UnlikeResult where
  | notLiked
  | unliked (likeCount : Nat)
deriving DecidableEq, Repr

/-- `unlikePost` core (src/controllers/communityController.js lines
745-762): 400 `NotLiked` when the user is not in `post.likes`; otherwise
filter the user out and respond with the new `post.likes.length`. -/
def unlikePost (p : Post) (userId : Id) : UnlikeResult × Post :=
  if !(p.likes.contains userId) then
    (.notLiked, p)
  else
    (.unliked (p.likes.filter (fun l => l != userId)).length,
     { p with likes := p.likes.filter (fun l => l != userId) })

/-- `createPost` core for a resolved author (src/controllers/
communityController.js lines 492-595): if the author is not yet a community
member, push them onto `members` and `$addToSet` the community into their
`joinedCommunities`/`notifiedCommunities`; then create the post (title
defaults to `"Post"`, content to `""`) and push its id onto
`community.posts`.  `newPostId` stands for the id the store assigns. -/
def createPost (c : Community) (author : User) (titleField contentField : Option String)
    (newPostId : Id) : Community × User × Post :=
  let step :=
    if !(c.members.contains author.id) then
      ({ c with members := c.members ++ [author.id] },
       { author with
          joinedCommunities := addToSet author.joinedCommunities c.id,
          notifiedCommunities := addToSet author.notifiedCommunities c.id })
    else (c, author)
  let post : Post :=
    { id := newPostId
      community := c.id
      author := some author.id
      authorName := author.name
      title := titleField.getD "Post"
      content := contentField.getD ""
      likes := [] }
  ({ step.1 with posts := step.1.posts ++ [post.id] }, step.2, post)

/-! ## Jobs: apply and save toggle -/

/-- Outcome of `applyForJob` for an authenticated user. -/
inductive ApplyResult where
  | alreadyApplied
  | deadlinePassed
  | appliedOk
deriving DecidableEq, Repr

/-- `applyForJob` core (src/controllers/jobController.js lines 227-277):
400 `AlreadyApplied` when the user already appears among `applicants`;
400 `DeadlinePassed` when `applicationDeadline` is set and before `now`;
otherwise unshift `{user, resume, coverLetter, status: "applied",
appliedAt: now}` onto `job.applicants` and `$push` `{job, status: "applied",
appliedAt: now}` onto `user.appliedJobs`. -/
def applyForJob (now : Nat) (j : Job) (u : User)
    (resume coverLetter : Option String) : ApplyResult × Job × User :=
  if j.applicants.any (fun a => a.user == u.id) then
    (.alreadyApplied, j, u)
  else if (match j.applicationDeadline with
           | some d => decide (d < now)
           | none => false) then
    (.deadlinePassed, j, u)
  else
    (.appliedOk,
     { j with applicants :=
        ⟨u.id, .applied, now, resume, coverLetter⟩ :: j.applicants },
     { u with appliedJobs := u.appliedJobs ++ [⟨j.id, .applied, now⟩] })

/-- Outcome of `Job.toggleSave` (src/server.js lines 530-570). -/
inductive ToggleSaveResult where
  | jobNotFound
  | ok (isSaved : Bool) (user : User)
deriving DecidableEq, Repr

/-- `JobSchema.statics.toggleSave` (src/server.js lines 530-570) for a
resolved user: throw when the job id is unknown; `$pull` the job from
`user.savedJobs` and answer `isSaved: false` when it was saved, `$addToSet`
it and answer `isSaved: true` otherwise. -/
def toggleSave (jobs : List Job) (jobId : Id) (u : User) : ToggleSaveResult :=
  match findJob jobs jobId with
  | none => .jobNotFound
  | some job =>
    if u.savedJobs.contains job.id then
      .ok false { u with savedJobs := u.savedJobs.filter (fun s => s != job.id) }
    else
      .ok true { u with savedJobs := addToSet u.savedJobs job.id }

/-! ## Login (src/controllers/jobController.js lines 448-492) -/

/-- Response of the `login` handler: 401 with a message, or 200 with the
public user fields and a token. -/
inductive LoginResponse where
  | unauthorized (status : Nat) (message : String)
  | ok (status : Nat) (userId : Id) (name email profileImage : String) (token : String)
deriving DecidableEq, Repr

/-- `UserSchema.methods.matchPassword` (src/models/User.js lines 138-140):
`bcrypt.compare(enteredPassword, this.password)`; `compare` stands for
`bcrypt.compare`. -/
def matchPassword (compare : String → String → Bool) (entered : String) (u : User) : Bool :=
  match u.password with
  | some h => compare entered h
  | none => false

/-- `login` (src/controllers/jobController.js lines 448-492): unknown email
and password mismatch both answer 401 `"Invalid email or password"`; on a
match, issue a token and answer 200 with the public user fields.  `issue`
stands for `generateToken`. -/
def login (compare : String → String → Bool) (issue : Id → String)
    (db : List User) (email pwd : String) : LoginResponse :=
  match findUserByEmail db email with
  | none => .unauthorized 401 "Invalid email or password"
  | some u =>
    if matchPassword compare pwd u then
      .ok 200 u.id u.name u.email u.profileImage (issue u.id)
    else
      .unauthorized 401 "Invalid email or password"

/-! ## Response representations of user data (for the password-exclusion
invariant) -/

/-- A JSON value as it appears in the user representations this backend
returns (all of which are flat objects of scalars and arrays). -/
inductive JValue where
  | null
  | str (s : String)
  | num (n : Nat)
  | jbool (b : Bool)
  | arrId (l : List Id)
  | arrStr (l : List String)
  | arrApplied (l : List AppliedEntry)
deriving DecidableEq, Repr

/-- The `user` object literal answered by `register` (src/controllers/
jobController.js lines 429-438): id, name, email, profileImage. -/
def registerResponseUser (u : User) : List (String × JValue) :=
  [("id", .num u.id), ("name", .str u.name), ("email", .str u.email),
   ("profileImage", .str u.profileImage)]

/-- The `user` object literal answered by `login` (src/controllers/
jobController.js lines 478-487): id, name, email, profileImage. -/
def loginResponseUser (u : User) : List (String × JValue) :=
  [("id", .num u.id), ("name", .str u.name), ("email", .str u.email),
   ("profileImage", .str u.profileImage)]

/-- The `user` object literal answered by `getMe` (src/controllers/
jobController.js lines 515-534). -/
def getMeResponseUser (u : User) : List (String × JValue) :=
  [("id", .num u.id), ("name", .str u.name), ("email", .str u.email),
   ("profileImage", .str u.profileImage), ("bio", .str u.bio),
   ("skills", .arrStr u.skills), ("location", .str u.location),
   ("joinedCommunities", .arrId u.joinedCommunities),
   ("notifiedCommunities", .arrId u.notifiedCommunities),
   ("savedJobs", .arrId u.savedJobs),
   ("appliedJobs", .arrApplied u.appliedJobs)]

/-- Serialisation of a whole user document as mongoose produces it: every
schema path present on the document, the `password` path only when it was
selected into the document. -/
def userDocFields (u : User) : List (String × JValue) :=
  [("_id", .num u.id), ("name", .str u.name), ("email", .str u.email)] ++
  (match u.password with
   | some p => [("password", .str p)]
   | none => []) ++
  [("profileImage", .str u.profileImage), ("bio", .str u.bio),
   ("skills", .arrStr u.skills), ("location", .str u.location),
   ("savedJobs", .arrId u.savedJobs),
   ("appliedJobs", .arrApplied u.appliedJobs),
   ("joinedCommunities", .arrId u.joinedCommunities),
   ("notifiedCommunities", .arrId u.notifiedCommunities)]

/-- `getMyProfile` (src/controllers/communityController.js lines 854-997):
after the existence check, fetches the authenticated user with
`.select("-password")` and answers the document as `data`; 404 (no user
data) when the id is unknown. -/
def getMyProfileResponse (db : List User) (i : Id) : Option (List (String × JValue)) :=
  (findUser db i).map (fun u => userDocFields (stripPassword u))

/-- Serialisation of a user document fetched with
`.select("-password -email -savedJobs -appliedJobs -notifiedCommunities")`
(src/controllers/communityController.js lines 1004-1005): the excluded
schema paths are absent from the document, so its JSON carries none of
their keys. -/
def publicProfileFields (u : User) : List (String × JValue) :=
  [("_id", .num u.id), ("name", .str u.name),
   ("profileImage", .str u.profileImage), ("bio", .str u.bio),
   ("skills", .arrStr u.skills), ("location", .str u.location),
   ("joinedCommunities", .arrId u.joinedCommunities)]

/-- `getUserProfile` (src/controllers/communityController.js lines
1002-1025): fetch by id under the restricted projection; 404 (no user
data) when absent; otherwise answer the projected document as `data`. -/
def getUserProfileResponse (db : List User) (i : Id) : Option (List (String × JValue)) :=
  (findUser db i).map publicProfileFields

/-! ## Concrete fixtures used to instantiate the theorems -/

/-- A concrete user document as stored (password hash present). -/
def uAlice : User :=
  { id := 1, name := "Alice", email := "alice@x.com", password := some "hash1"
    profileImage := "", bio := "", skills := [], location := ""
    savedJobs := [], appliedJobs := [], joinedCommunities := []
    notifiedCommunities := [] }

/-- A second concrete user document. -/
def uBea : User :=
  { id := 2, name := "Bea", email := "bea@x.com", password := some "hash2"
    profileImage := "", bio := "", skills := [], location := ""
    savedJobs := [], appliedJobs := [], joinedCommunities := [10]
    notifiedCommunities := [10] }

/-- A community where `uAlice` is the sole moderator and `uBea` is another
member. -/
def cSolo : Community :=
  { id := 10, name := "c", description := "", members := [1, 2]
    moderators := [1], posts := [] }

/-- A community `uAlice` is not a member of. -/
def cOpen : Community :=
  { id := 11, name := "open", description := "", members := [2]
    moderators := [2], posts := [] }

/-- A concrete job with no applicants and no deadline. -/
def jPlain : Job :=
  { id := 20, postedBy := 2, applicationDeadline := none, applicants := [] }

/-- A concrete job whose deadline is time 5. -/
def jDeadline : Job :=
  { id := 21, postedBy := 2, applicationDeadline := some 5, applicants := [] }

/-- A concrete post with no likes. -/
def pFresh : Post :=
  { id := 30, community := 10, author := some 2, authorName := "Bea"
    title := "t", content := "", likes := [] }

/-- A verifier for the fixtures: token `"tokA"` is Alice's valid token,
`"tokExp"` is expired, `"tokBad"` is malformed, everything else fails with
an unknown error. -/
def verifyFix (t : String) : VerifyResult :=
  if t == "tokA" then .ok 1
  else if t == "tokGone" then .ok 99
  else if t == "tokExp" then .expired
  else if t == "tokBad" then .malformed "invalid signature"
  else .other

/-- Alice's document in the state where she has joined community 10
(`cSolo`): it appears in her `joinedCommunities`/`notifiedCommunities`. -/
def uAliceJoined : User :=
  { uAlice with joinedCommunities := [10], notifiedCommunities := [10] }

/-- Another concrete community: both Alice and Bea are members and
moderators. -/
def cDuo : Community :=
  { id := 12, name := "duo", description := "", members := [1, 2]
    moderators := [1, 2], posts := [] }

/-! ## Theorems -/

/-- Membership of the added element after `$addToSet`. -/
theorem mem_addToSet_self (l : List Id) (x : Id) : x ∈ addToSet l x := by
  unfold addToSet
  by_cases h : l.contains x
  · simp only [h, if_true]
    simpa using h
  · simp only [h, if_false]
    simp

/-- C2: `leaveCommunity` fails with `NotAMember` when the user is not in
`members`, and fails with the last-moderator constraint when the user is a
moderator, the only moderator, and more than one member remains (under the
data-model invariant that moderators are members); in both failure cases
the community document — in particular `members` and `moderators` — is
returned unchanged. -/
theorem C2_leave_failure_contract (c : Community) (u : User)
    (hsub : ∀ m ∈ c.moderators, m ∈ c.members) :
    (u.id ∉ c.members → leaveCommunity c u = (.notAMember, c, u)) ∧
    (u.id ∈ c.moderators → c.moderators.length = 1 → 1 < c.members.length →
      leaveCommunity c u = (.lastModerator, c, u)) := by
  constructor
  · intro h
    simp [leaveCommunity, h]
  · intro hmod hlen hmem
    have hm : u.id ∈ c.members := hsub _ hmod
    simp [leaveCommunity, hm, hmod, hlen, hmem]

/-- C2 witness: Alice is not a member of `cOpen`, so leaving fails with
`NotAMember`; Alice is the sole moderator of `cSolo`, which has another
member, so leaving fails with the last-moderator constraint; both leave the
community unchanged. -/
theorem C2_witness :
    leaveCommunity cOpen uAlice = (.notAMember, cOpen, uAlice) ∧
    leaveCommunity cSolo uAlice = (.lastModerator, cSolo, uAlice) :=
  ⟨(C2_leave_failure_contract cOpen uAlice (by decide)).1 (by decide),
   (C2_leave_failure_contract cSolo uAlice (by decide)).2 (by decide)
     (by decide) (by decide)⟩

/-- C3 as stated is false on the code: Alice is already a member (and sole
moderator) of `cSolo`, which has another member; `join` is a no-op and
`leave` fails with the last-moderator constraint, so after join-then-leave
Alice is still in `members` — contradicting "join(u,c) then leave(u,c)
results in u ∉ c.members". -/
theorem C3_counterexample :
    uAliceJoined.id ∈ (joinThenLeave cSolo uAliceJoined).1.members ∧
    cSolo.id ∈ (joinThenLeave cSolo uAliceJoined).2.joinedCommunities ∧
    (joinThenLeave cSolo uAliceJoined).1.members = [1, 2] := by
  decide

/-- After `joinCommunity` the user is always a member. -/
theorem joinCommunity_mem (c : Community) (u : User) :
    u.id ∈ (joinCommunity c u).2.1.members := by
  unfold joinCommunity
  by_cases h : c.members.any (fun m => m == u.id) = true
  · simp only [h, if_true]
    simpa using h
  · simp only [h, if_false]
    simp

/-- `joinCommunity` preserves the community and user ids. -/
theorem joinCommunity_id (c : Community) (u : User) :
    (joinCommunity c u).2.1.id = c.id ∧ (joinCommunity c u).2.2.id = u.id := by
  unfold joinCommunity
  by_cases h : c.members.any (fun m => m == u.id) = true <;> simp [h]

/-- A member whose leave does not hit the last-moderator constraint ends up
outside `members`, and the community ends up outside their
`joinedCommunities`. -/
theorem leaveCommunity_removes (c : Community) (u : User)
    (hmem : u.id ∈ c.members)
    (hnl : (leaveCommunity c u).1 ≠ .lastModerator) :
    u.id ∉ (leaveCommunity c u).2.1.members ∧
    c.id ∉ (leaveCommunity c u).2.2.joinedCommunities := by
  unfold leaveCommunity at *
  have hany : c.members.any (fun m => m == u.id) = true := by simpa using hmem
  by_cases hA : (c.moderators.any (fun m => m == u.id) &&
      c.moderators.length == 1 && decide (c.members.length > 1)) = true
  · exfalso
    apply hnl
    simp [hany, hA]
  · simp only [hany, Bool.not_true, if_false, hA, if_true]
    constructor <;> simp

/-- C3 amended: join when already a member is a no-op success, and
join-then-leave removes the user from `members` and the community from
`joinedCommunities` provided the leave does not fail with the
last-moderator constraint. -/
theorem C3_join_then_leave (c : Community) (u : User)
    (hnoMod : (leaveCommunity (joinCommunity c u).2.1 (joinCommunity c u).2.2).1 ≠
      .lastModerator) :
    (u.id ∈ c.members → joinCommunity c u = (.alreadyMember, c, u)) ∧
    u.id ∉ (joinThenLeave c u).1.members ∧
    c.id ∉ (joinThenLeave c u).2.joinedCommunities := by
  obtain ⟨hcid, huid⟩ := joinCommunity_id c u
  have hmem := joinCommunity_mem c u
  have h := leaveCommunity_removes (joinCommunity c u).2.1 (joinCommunity c u).2.2
    (by rw [huid]; exact hmem) hnoMod
  refine ⟨fun hm => by simp [joinCommunity, hm], ?_, ?_⟩
  · have := h.1
    rw [huid] at this
    simpa [joinThenLeave] using this
  · have := h.2
    rw [hcid] at this
    simpa [joinThenLeave] using this

/-- C3 witness for the amended claim: Alice joins and then leaves `cOpen`
(where she is not a moderator), ending outside `members` and with the
community removed from her `joinedCommunities`; and joining `cDuo`, where
she is already a member, is a no-op. -/
theorem C3_witness :
    (uAlice.id ∉ (joinThenLeave cOpen uAlice).1.members ∧
     cOpen.id ∉ (joinThenLeave cOpen uAlice).2.joinedCommunities) ∧
    joinCommunity cDuo uAlice = (.alreadyMember, cDuo, uAlice) :=
  ⟨⟨(C3_join_then_leave cOpen uAlice (by decide)).2.1,
    (C3_join_then_leave cOpen uAlice (by decide)).2.2⟩,
   (C3_join_then_leave cDuo uAlice (by decide)).1 (by decide)⟩

/-- `toggleSave` on a not-yet-saved job answers `isSaved: true` and
`$addToSet`s the job into `savedJobs`. -/
theorem toggleSave_of_not_saved (jobs : List Job) (j : Id) (job : Job) (u : User)
    (hfind : findJob jobs j = some job) (h : j ∉ u.savedJobs) :
    toggleSave jobs j u = .ok true { u with savedJobs := u.savedJobs ++ [j] } := by
  have hid : job.id = j := by
    have := List.find?_some hfind
    simpa using this
  subst hid
  unfold toggleSave
  rw [hfind]
  simp [addToSet, h]

/-- `toggleSave` on an already-saved job answers `isSaved: false` and
`$pull`s the job out of `savedJobs`. -/
theorem toggleSave_of_saved (jobs : List Job) (j : Id) (job : Job) (u : User)
    (hfind : findJob jobs j = some job) (h : j ∈ u.savedJobs) :
    toggleSave jobs j u =
      .ok false { u with savedJobs := u.savedJobs.filter (fun s => s != j) } := by
  have hid : job.id = j := by
    have := List.find?_some hfind
    simpa using this
  subst hid
  unfold toggleSave
  rw [hfind]
  simp [h]

/-- C4: the save-job toggle is a pure boolean flip on `User.savedJobs`:
starting from a job not in `savedJobs`, three successive toggles answer
`isSaved` = true, false, true, and after each call the returned boolean
equals whether the job is present in the resulting `savedJobs`. -/
theorem C4_toggleSave_flip (jobs : List Job) (j : Id) (job : Job) (u : User)
    (hfind : findJob jobs j = some job) (h0 : j ∉ u.savedJobs) :
    ∃ u1 u2 u3,
      toggleSave jobs j u = .ok true u1 ∧ j ∈ u1.savedJobs ∧
      toggleSave jobs j u1 = .ok false u2 ∧ j ∉ u2.savedJobs ∧
      toggleSave jobs j u2 = .ok true u3 ∧ j ∈ u3.savedJobs := by
  refine ⟨{ u with savedJobs := u.savedJobs ++ [j] },
          { u with savedJobs := (u.savedJobs ++ [j]).filter (fun s => s != j) },
          { u with savedJobs := (u.savedJobs ++ [j]).filter (fun s => s != j) ++ [j] },
          toggleSave_of_not_saved jobs j job u hfind h0, by simp, ?_, ?_, ?_, by simp⟩
  · exact toggleSave_of_saved jobs j job _ hfind (by simp)
  · simp
  · exact toggleSave_of_not_saved jobs j job _ hfind (by simp)

/-- C4 witness: the toggle chain on the concrete job store `[jPlain]` and
user `uAlice`, whose `savedJobs` starts empty. -/
theorem C4_witness :
    ∃ u1 u2 u3,
      toggleSave [jPlain] 20 uAlice = .ok true u1 ∧ (20 : Id) ∈ u1.savedJobs ∧
      toggleSave [jPlain] 20 u1 = .ok false u2 ∧ (20 : Id) ∉ u2.savedJobs ∧
      toggleSave [jPlain] 20 u2 = .ok true u3 ∧ (20 : Id) ∈ u3.savedJobs :=
  C4_toggleSave_flip [jPlain] 20 jPlain uAlice rfl (by decide)

/-- C5: liking an already-liked post fails with `AlreadyLiked` leaving
`likes` unchanged; unliking a not-liked post fails with `NotLiked` leaving
`likes` unchanged; every successful like or unlike answers a `likeCount`
equal to the length of `likes` after the mutation. -/
theorem C5_like_unlike_contract (p : Post) (uid : Id) :
    (uid ∈ p.likes → likePost p uid = (.alreadyLiked, p)) ∧
    (uid ∉ p.likes → unlikePost p uid = (.notLiked, p)) ∧
    (∀ n p', likePost p uid = (.liked n, p') → n = p'.likes.length) ∧
    (∀ n p', unlikePost p uid = (.unliked n, p') → n = p'.likes.length) := by
  refine ⟨fun h => by simp [likePost, h], fun h => by simp [unlikePost, h], ?_, ?_⟩
  · intro n p' h
    unfold likePost at h
    split at h
    · simp at h
    · simp only [Prod.mk.injEq, LikeResult.liked.injEq] at h
      obtain ⟨h1, h2⟩ := h
      subst h2
      exact h1.symm
  · intro n p' h
    unfold unlikePost at h
    split at h
    · simp at h
    · simp only [Prod.mk.injEq, UnlikeResult.unliked.injEq] at h
      obtain ⟨h1, h2⟩ := h
      subst h2
      exact h1.symm

/-- C5 witness: nobody has liked `pFresh`, so Alice's unlike fails with
`NotLiked` and leaves the post unchanged; after Alice's successful like the
returned count equals the new length of `likes`; a repeated like by the
same user fails with `AlreadyLiked`. -/
theorem C5_witness :
    unlikePost pFresh 1 = (.notLiked, pFresh) ∧
    (∀ n p', likePost pFresh 1 = (.liked n, p') → n = p'.likes.length) ∧
    likePost { pFresh with likes := [1] } 1 = (.alreadyLiked, { pFresh with likes := [1] }) :=
  ⟨(C5_like_unlike_contract pFresh 1).2.1 (by decide),
   (C5_like_unlike_contract pFresh 1).2.2.1,
   (C5_like_unlike_contract { pFresh with likes := [1] } 1).1 (by decide)⟩

/-- C6: applying twice fails the second time with `AlreadyApplied`;
applying when `applicationDeadline` is set and before the request time
fails with `DeadlinePassed`; a successful application appends an entry with
status `applied` to both `Job.applicants` and `User.appliedJobs`, and any
later application by the same user fails with `AlreadyApplied`. -/
theorem C6_apply_contract (now : Nat) (j : Job) (u : User) (r cl : Option String) :
    (u.id ∈ j.applicants.map Applicant.user →
      applyForJob now j u r cl = (.alreadyApplied, j, u)) ∧
    (u.id ∉ j.applicants.map Applicant.user →
     ∀ d, j.applicationDeadline = some d → d < now →
      applyForJob now j u r cl = (.deadlinePassed, j, u)) ∧
    (∀ j' u', applyForJob now j u r cl = (.appliedOk, j', u') →
      (⟨u.id, .applied, now, r, cl⟩ : Applicant) ∈ j'.applicants ∧
      (⟨j.id, .applied, now⟩ : AppliedEntry) ∈ u'.appliedJobs ∧
      ∀ now2 r2 cl2, (applyForJob now2 j' u' r2 cl2).1 = .alreadyApplied) := by
  refine ⟨?_, ?_, ?_⟩
  · intro h
    have : j.applicants.any (fun a => a.user == u.id) = true := by
      simp only [List.any_eq_true, beq_iff_eq]
      obtain ⟨a, ha, hau⟩ := List.mem_map.1 h
      exact ⟨a, ha, hau⟩
    simp [applyForJob, this]
  · intro h d hd hlt
    have hnone : j.applicants.any (fun a => a.user == u.id) = false := by
      simp only [List.any_eq_false, beq_iff_eq]
      intro a ha hau
      exact h (List.mem_map.2 ⟨a, ha, hau⟩)
    simp [applyForJob, hnone, hd, hlt]
  · intro j' u' h
    unfold applyForJob at h
    by_cases h1 : j.applicants.any (fun a => a.user == u.id) = true
    · simp [h1] at h
    · by_cases h2 : (match j.applicationDeadline with
                     | some d => decide (d < now)
                     | none => false) = true
      · simp [h1, h2] at h
      · rw [if_neg (by simpa using h1), if_neg (by simpa using h2)] at h
        injection h with hres hrest
        injection hrest with hj hu
        subst hj
        subst hu
        refine ⟨List.mem_cons_self _ _, by simp, ?_⟩
        intro now2 r2 cl2
        simp [applyForJob]

/-- C6 witness: Alice applying to `jDeadline` at time 10 (deadline 5) fails
with `DeadlinePassed`; applying to `jPlain` succeeds, records the
`applied`-status entries on both sides, and a second application fails with
`AlreadyApplied`. -/
theorem C6_witness :
    applyForJob 10 jDeadline uAlice none none = (.deadlinePassed, jDeadline, uAlice) ∧
    ∀ j' u', applyForJob 10 jPlain uAlice none none = (.appliedOk, j', u') →
      (⟨uAlice.id, .applied, 10, none, none⟩ : Applicant) ∈ j'.applicants ∧
      (⟨jPlain.id, .applied, 10⟩ : AppliedEntry) ∈ u'.appliedJobs ∧
      (applyForJob 11 j' u' none none).1 = .alreadyApplied :=
  ⟨(C6_apply_contract 10 jDeadline uAlice none none).2.1 (by decide) 5 rfl (by decide),
   fun j' u' h =>
     ⟨((C6_apply_contract 10 jPlain uAlice none none).2.2 j' u' h).1,
      ((C6_apply_contract 10 jPlain uAlice none none).2.2 j' u' h).2.1,
      ((C6_apply_contract 10 jPlain uAlice none none).2.2 j' u' h).2.2 11 none none⟩⟩

/-- A string produced by the truthiness filter is itself truthy. -/
theorem jsStringTruthy_idem (a : Option String) (t : String)
    (h : jsStringTruthy a = some t) : jsStringTruthy (some t) = some t := by
  cases a with
  | none => simp [jsStringTruthy] at h
  | some s =>
    by_cases hs : (s == "") = true
    · simp [jsStringTruthy, hs] at h
    · have hst : some s = some t := by simpa [jsStringTruthy, hs] using h
      cases hst
      simp [jsStringTruthy, hs]

/-- C1: the mandatory auth middleware extracts the credential in priority
order `token` cookie, `auth_token` cookie, `Authorization: Bearer` header;
a missing credential halts with 401 and no user attached; expired,
malformed and unknown verification failures halt with 401 and pairwise
distinct reasons; a valid token whose user is gone halts with 401; on
success the resolved user, password excluded, is attached and the request
proceeds. -/
theorem C1_authMiddleware_contract (verify : String → VerifyResult)
    (db : List User) (r : Request) :
    (∀ t, jsStringTruthy r.cookieToken = some t → extractToken r = some t) ∧
    (jsStringTruthy r.cookieToken = none →
      ∀ t, jsStringTruthy r.cookieAuthToken = some t → extractToken r = some t) ∧
    (jsStringTruthy r.cookieToken = none → jsStringTruthy r.cookieAuthToken = none →
      extractToken r = jsStringTruthy (bearerFromHeader r.authorizationHeader)) ∧
    (∀ s, extractToken r = none →
      authMiddleware verify db s r =
        .halt 401 ⟨"Authentication required", "No token provided"⟩) ∧
    (∀ t, extractToken r = some t → verify t = .expired →
      authMiddleware verify db true r =
        .halt 401 ⟨"Authentication expired", "Token has expired"⟩) ∧
    (∀ t m, extractToken r = some t → verify t = .malformed m →
      authMiddleware verify db true r = .halt 401 ⟨"Invalid authentication", m⟩) ∧
    (∀ t, extractToken r = some t → verify t = .other →
      authMiddleware verify db true r =
        .halt 401 ⟨"Authentication failed", "Token verification failed"⟩) ∧
    (∀ m, (MwOutcome.halt 401 ⟨"Authentication expired", "Token has expired"⟩) ≠
        .halt 401 ⟨"Invalid authentication", m⟩) ∧
    (∀ m, (MwOutcome.halt 401 ⟨"Invalid authentication", m⟩) ≠
        .halt 401 ⟨"Authentication failed", "Token verification failed"⟩) ∧
    ((MwOutcome.halt 401 ⟨"Authentication expired", "Token has expired"⟩) ≠
        .halt 401 ⟨"Authentication failed", "Token verification failed"⟩) ∧
    (∀ t uid, extractToken r = some t → verify t = .ok uid → findUser db uid = none →
      authMiddleware verify db true r =
        .halt 401 ⟨"User not found", "Account may have been deleted"⟩) ∧
    (∀ t uid u, extractToken r = some t → verify t = .ok uid → findUser db uid = some u →
      authMiddleware verify db true r = .proceed (some (stripPassword u)) ∧
      (stripPassword u).password = none) := by
  refine ⟨?_, ?_, ?_, ?_, ?_, ?_, ?_, ?_, ?_, ?_, ?_, ?_⟩
  · intro t ht
    unfold extractToken jsOr
    rw [ht]
    exact jsStringTruthy_idem _ _ ht
  · intro h1 t ht
    unfold extractToken jsOr
    rw [h1, ht]
    exact jsStringTruthy_idem _ _ ht
  · intro h1 h2
    unfold extractToken jsOr
    rw [h1, h2]
  · intro s h
    simp [authMiddleware, h]
  · intro t ht hv
    simp [authMiddleware, ht, hv]
  · intro t m ht hv
    simp [authMiddleware, ht, hv]
  · intro t ht hv
    simp [authMiddleware, ht, hv]
  · intro m h
    simp at h
  · intro m h
    simp at h
  · intro h
    simp at h
  · intro t uid ht hv hu
    simp [authMiddleware, ht, hv, hu]
  · intro t uid u ht hv hu
    exact ⟨by simp [authMiddleware, ht, hv, hu], rfl⟩

/-- C1 witness: with the concrete verifier and store `[uAlice]`, a request
whose `token` cookie is Alice's valid token proceeds with Alice attached
minus her password; a request with only the `auth_token` cookie set to an
expired token halts 401; a request with no credential halts 401. -/
theorem C1_witness :
    authMiddleware verifyFix [uAlice] true ⟨some "tokA", none, none⟩ =
      .proceed (some (stripPassword uAlice)) ∧
    authMiddleware verifyFix [uAlice] true ⟨none, some "tokExp", none⟩ =
      .halt 401 ⟨"Authentication expired", "Token has expired"⟩ ∧
    authMiddleware verifyFix [uAlice] true ⟨none, none, none⟩ =
      .halt 401 ⟨"Authentication required", "No token provided"⟩ :=
  ⟨((C1_authMiddleware_contract verifyFix [uAlice] ⟨some "tokA", none, none⟩
      ).2.2.2.2.2.2.2.2.2.2.2 "tokA" 1 uAlice rfl rfl rfl).1,
   (C1_authMiddleware_contract verifyFix [uAlice] ⟨none, some "tokExp", none⟩
      ).2.2.2.2.1 "tokExp" rfl rfl,
   (C1_authMiddleware_contract verifyFix [uAlice] ⟨none, none, none⟩
      ).2.2.2.1 true rfl⟩

/-- C8: the optional auth middleware never halts a request; a missing
token, a failed verification of any kind, or a valid token whose user no
longer exists all continue the request with no identity attached. -/
theorem C8_optional_never_blocks (verify : String → VerifyResult)
    (db : List User) (r : Request) :
    (∀ s b, optionalAuthMiddleware verify db r ≠ .halt s b) ∧
    (extractToken r = none → optionalAuthMiddleware verify db r = .proceed none) ∧
    (∀ t, extractToken r = some t → verify t = .expired →
      optionalAuthMiddleware verify db r = .proceed none) ∧
    (∀ t m, extractToken r = some t → verify t = .malformed m →
      optionalAuthMiddleware verify db r = .proceed none) ∧
    (∀ t, extractToken r = some t → verify t = .other →
      optionalAuthMiddleware verify db r = .proceed none) ∧
    (∀ t uid, extractToken r = some t → verify t = .ok uid → findUser db uid = none →
      optionalAuthMiddleware verify db r = .proceed none) := by
  refine ⟨?_, ?_, ?_, ?_, ?_, ?_⟩
  · intro s b h
    unfold optionalAuthMiddleware at h
    split at h
    · simp at h
    · split at h
      · split at h <;> simp at h
      all_goals simp at h
  · intro h
    simp [optionalAuthMiddleware, h]
  · intro t ht hv
    simp [optionalAuthMiddleware, ht, hv]
  · intro t m ht hv
    simp [optionalAuthMiddleware, ht, hv]
  · intro t ht hv
    simp [optionalAuthMiddleware, ht, hv]
  · intro t uid ht hv hu
    simp [optionalAuthMiddleware, ht, hv, hu]

/-- C8 witness: a malformed token and an empty user store both make the
optional middleware continue with no identity. -/
theorem C8_witness :
    optionalAuthMiddleware verifyFix [] ⟨some "tokBad", none, none⟩ = .proceed none ∧
    optionalAuthMiddleware verifyFix [] ⟨some "tokA", none, none⟩ = .proceed none :=
  ⟨(C8_optional_never_blocks verifyFix [] ⟨some "tokBad", none, none⟩
      ).2.2.2.1 "tokBad" "invalid signature" rfl rfl,
   (C8_optional_never_blocks verifyFix [] ⟨some "tokA", none, none⟩
      ).2.2.2.2.2 "tokA" 1 rfl rfl rfl⟩

/-- C7: any login with a wrong password — whether the email is unknown or
the email exists and the password mismatches — answers 401 `"Invalid email
or password"`, and two such runs produce identical responses. -/
theorem C7_login_indistinguishable (compare : String → String → Bool)
    (issue : Id → String) (db1 db2 : List User) (e1 e2 p1 p2 : String)
    (h1 : ∀ u, findUserByEmail db1 e1 = some u → matchPassword compare p1 u = false)
    (h2 : ∀ u, findUserByEmail db2 e2 = some u → matchPassword compare p2 u = false) :
    login compare issue db1 e1 p1 = .unauthorized 401 "Invalid email or password" ∧
    login compare issue db1 e1 p1 = login compare issue db2 e2 p2 := by
  have key : ∀ (db : List User) (e p : String),
      (∀ u, findUserByEmail db e = some u → matchPassword compare p u = false) →
      login compare issue db e p = .unauthorized 401 "Invalid email or password" := by
    intro db e p h
    unfold login
    cases hf : findUserByEmail db e with
    | none => rfl
    | some u => simp [h u hf]
  exact ⟨key db1 e1 p1 h1, (key db1 e1 p1 h1).trans (key db2 e2 p2 h2).symm⟩

/-- C7 witness: with a comparator that rejects everything, logging in with
Alice's existing email and logging in with an unknown email produce the
same 401 response. -/
theorem C7_witness :
    login (fun _ _ => false) (fun _ => "t") [uAlice] "alice@x.com" "wrong" =
      .unauthorized 401 "Invalid email or password" ∧
    login (fun _ _ => false) (fun _ => "t") [uAlice] "alice@x.com" "wrong" =
      login (fun _ _ => false) (fun _ => "t") [uAlice] "ghost@x.com" "wrong" :=
  C7_login_indistinguishable (fun _ _ => false) (fun _ => "t")
    [uAlice] [uAlice] "alice@x.com" "ghost@x.com" "wrong" "wrong"
    (fun u _ => by cases hu : u.password <;> simp [matchPassword, hu])
    (fun u _ => by cases hu : u.password <;> simp [matchPassword, hu])

/-- C9: no user representation this backend returns carries the password:
the `user` objects answered by register, login and `GET /api/auth/me` have
no `password` field; the two profile reads (`getMyProfile` with
`-password`, public `getUserProfile` with its wider exclusion list) answer
documents with no `password` field; and the user the mandatory auth
middleware attaches has the password excluded. -/
theorem C9_password_never_returned (u : User) (db : List User) (i : Id)
    (verify : String → VerifyResult) (secretSet : Bool) (r : Request) :
    "password" ∉ (registerResponseUser u).map Prod.fst ∧
    "password" ∉ (loginResponseUser u).map Prod.fst ∧
    "password" ∉ (getMeResponseUser u).map Prod.fst ∧
    (∀ fields, getMyProfileResponse db i = some fields →
      "password" ∉ fields.map Prod.fst) ∧
    (∀ fields, getUserProfileResponse db i = some fields →
      "password" ∉ fields.map Prod.fst) ∧
    (∀ v, authMiddleware verify db secretSet r = .proceed (some v) →
      v.password = none) := by
  refine ⟨by simp [registerResponseUser], by simp [loginResponseUser],
          by simp [getMeResponseUser], ?_, ?_, ?_⟩
  · intro fields h
    unfold getMyProfileResponse at h
    cases hf : findUser db i with
    | none =>
      rw [hf] at h
      simp at h
    | some w =>
      rw [hf] at h
      simp only [Option.map_some', Option.some.injEq] at h
      rw [← h]
      simp [userDocFields, stripPassword]
  · intro fields h
    unfold getUserProfileResponse at h
    cases hf : findUser db i with
    | none =>
      rw [hf] at h
      simp at h
    | some w =>
      rw [hf] at h
      simp only [Option.map_some', Option.some.injEq] at h
      rw [← h]
      simp [publicProfileFields]
  · intro v h
    unfold authMiddleware at h
    split at h
    · simp at h
    · split at h
      · simp at h
      · split at h
        · split at h
          · simp at h
          · simp only [MwOutcome.proceed.injEq, Option.some.injEq] at h
            rw [← h]
            rfl
        · simp at h
        · simp at h
        · simp at h

/-- C9 witness: both concrete profile reads of Alice carry no `password`
key, and the user attached by the middleware for Alice's token has
`password = none`. -/
theorem C9_witness :
    "password" ∉ (userDocFields (stripPassword uAlice)).map Prod.fst ∧
    "password" ∉ (publicProfileFields uAlice).map Prod.fst ∧
    (stripPassword uAlice).password = none :=
  ⟨(C9_password_never_returned uAlice [uAlice] 1 verifyFix true
      ⟨some "tokA", none, none⟩).2.2.2.1 (userDocFields (stripPassword uAlice)) rfl,
   (C9_password_never_returned uAlice [uAlice] 1 verifyFix true
      ⟨some "tokA", none, none⟩).2.2.2.2.1 (publicProfileFields uAlice) rfl,
   (C9_password_never_returned uAlice [uAlice] 1 verifyFix true
      ⟨some "tokA", none, none⟩).2.2.2.2.2 (stripPassword uAlice) rfl⟩

/-- C10: creating a post in a community with a resolved author who is not
yet a member silently joins them: the author lands in `community.members`
and the community in the author's `joinedCommunities` and
`notifiedCommunities`, and the new post is appended to `community.posts`. -/
theorem C10_createPost_silent_join (c : Community) (a : User)
    (titleField contentField : Option String) (pid : Id)
    (h : a.id ∉ c.members) :
    a.id ∈ (createPost c a titleField contentField pid).1.members ∧
    c.id ∈ (createPost c a titleField contentField pid).2.1.joinedCommunities ∧
    c.id ∈ (createPost c a titleField contentField pid).2.1.notifiedCommunities ∧
    (createPost c a titleField contentField pid).1.posts = c.posts ++ [pid] ∧
    (createPost c a titleField contentField pid).2.2.community = c.id := by
  refine ⟨?_, ?_, ?_, ?_, ?_⟩ <;>
    simp [createPost, h, mem_addToSet_self]

/-- C10 witness: Alice posts in `cOpen`, which she has not joined; the call
adds her to `members` and `cOpen` to both of her community sets, and
appends the new post id. -/
theorem C10_witness :
    uAlice.id ∈ (createPost cOpen uAlice none none 31).1.members ∧
    cOpen.id ∈ (createPost cOpen uAlice none none 31).2.1.joinedCommunities ∧
    cOpen.id ∈ (createPost cOpen uAlice none none 31).2.1.notifiedCommunities :=
  ⟨(C10_createPost_silent_join cOpen uAlice none none 31 (by decide)).1,
   (C10_createPost_silent_join cOpen uAlice none none 31 (by decide)).2.1,
   (C10_createPost_silent_join cOpen uAlice none none 31 (by decide)).2.2.1⟩

end EmpowHER
